import Mathlib

/-!
Verification of the MCP weather server (JSON-RPC dispatcher plus the
WeatherMCP tool class) against its natural-language specification.

The TypeScript source is shallowly embedded: JavaScript values are the
inductive `JSValue` (with an explicit `undefv` constructor), property
access models JS semantics (reading a property of `undefined` or `null`
throws, every other read yields a value or `undefined`), template
interpolation is `toJSString`, and the upstream `fetch` is an oracle
`Fetch : String → Option JSValue` (`none` models every failure path of
`makeNWSRequest`, which collapses all failures to `null`).  Thrown
exceptions are the `Except.error` branch of `Except String α`.
-/

/-- Model of a JavaScript runtime value as produced by `response.json()`
together with the `undefined` sentinel. -/
inductive JSValue where
  | undefv : JSValue
  | nullv : JSValue
  | bool : Bool → JSValue
  | num : Int → JSValue
  | str : String → JSValue
  | arr : List JSValue → JSValue
  | obj : List (String × JSValue) → JSValue

/-- JS truthiness: `undefined`, `null`, `false`, `0` and `""` are falsy;
objects and arrays are always truthy. -/
def jsTruthy : JSValue → Bool
  | .undefv => false
  | .nullv => false
  | .bool b => b
  | .num n => n != 0
  | .str s => s != ""
  | .arr _ => true
  | .obj _ => true

/-- JS `a || b`: `a` when truthy, else `b`. -/
def jsOr (a b : JSValue) : JSValue :=
  if jsTruthy a then a else b

/-- Total JS property read on a non-nullish value: object field lookup
(absent field gives `undefined`), `length` on arrays and strings,
`undefined` on every other primitive. -/
def jsGet : JSValue → String → JSValue
  | .obj fields, k => (List.lookup k fields).getD .undefv
  | .arr xs, k => if k = "length" then .num xs.length else .undefv
  | .str s, k => if k = "length" then .num s.length else .undefv
  | _, _ => .undefv

/-- JS property access `v.k`: throws a TypeError when `v` is `undefined`
or `null`, otherwise reads with `jsGet`. -/
def getProp (v : JSValue) (k : String) : Except String JSValue :=
  match v with
  | .undefv => .error ("TypeError: cannot read " ++ k ++ " of undefined")
  | .nullv => .error ("TypeError: cannot read " ++ k ++ " of null")
  | _ => .ok (jsGet v k)

mutual

/-- JS string coercion as performed by template literals. -/
def toJSString : JSValue → String
  | .undefv => "undefined"
  | .nullv => "null"
  | .bool true => "true"
  | .bool false => "false"
  | .num n => toString n
  | .str s => s
  | .arr xs => toJSStringList xs
  | .obj _ => "[object Object]"

/-- JS `Array.prototype.toString`: elements joined with commas. -/
def toJSStringList : List JSValue → String
  | [] => ""
  | [x] => toJSString x
  | x :: rest => toJSString x ++ "," ++ toJSStringList rest

end

/-- JS `xs.slice(0, e)`: a negative end counts from the end of the
array, a nonnegative end truncates. -/
def jsSlice0 (e : Int) (xs : List JSValue) : List JSValue :=
  if e < 0 then xs.take ((xs.length + e).toNat) else xs.take e.toNat

/-- Value of a decimal digit character, `none` otherwise. -/
def decDigitVal (c : Char) : Option Nat :=
  if c.isDigit then some (c.toNat - 48) else none

/-- Value of a hexadecimal digit character, `none` otherwise. -/
def hexDigitVal (c : Char) : Option Nat :=
  if c.isDigit then some (c.toNat - 48)
  else if 97 ≤ c.toNat ∧ c.toNat ≤ 102 then some (c.toNat - 87)
  else if 65 ≤ c.toNat ∧ c.toNat ≤ 70 then some (c.toNat - 55)
  else none

/-- Value of the longest leading run of digits of the given base;
`none` when there is no leading digit (the NaN case of `parseInt`). -/
def digitsVal (base : Nat) (dig : Char → Option Nat) (cs : List Char) : Option Nat :=
  let ds := cs.takeWhile (fun c => (dig c).isSome)
  if ds.isEmpty then none
  else some (ds.foldl (fun a c => a * base + (dig c).getD 0) 0)

/-- Unsigned part of JS `parseInt`: a `0x`/`0X` prefix switches to
hexadecimal, otherwise leading decimal digits are read and the rest of
the string is ignored. -/
def parseIntBody (cs : List Char) : Option Nat :=
  match cs with
  | '0' :: 'x' :: rest => digitsVal 16 hexDigitVal rest
  | '0' :: 'X' :: rest => digitsVal 16 hexDigitVal rest
  | _ => digitsVal 10 decDigitVal cs

/-- JS `parseInt(s)` (radix unspecified): skip leading whitespace, read
an optional sign, then digits; `none` models NaN. -/
def jsParseInt (s : String) : Option Int :=
  match s.toList.dropWhile (fun c => c.isWhitespace) with
  | '-' :: rest => (parseIntBody rest).map (fun n => -(n : Int))
  | '+' :: rest => (parseIntBody rest).map (fun n => (n : Int))
  | rest => (parseIntBody rest).map (fun n => (n : Int))

/-- JS `x || d` on a number produced by `parseInt`: NaN (`none`) and `0`
fall back to the default `d`. -/
def numOr (x : Option Int) (d : Int) : Int :=
  match x with
  | none => d
  | some n => if n = 0 then d else n

/-- The `WeatherConfig` interface.  `NWS_API_BASE` and `USER_AGENT` are
kept as runtime values because the `env` record is untyped (`any`); the
two numeric knobs are integers after `parseInt`. -/
structure WeatherConfig where
  NWS_API_BASE : JSValue
  USER_AGENT : JSValue
  REQUEST_TIMEOUT : Int
  MAX_FORECAST_PERIODS : Int

/-- The `WeatherMCP` constructor: builds the config from the worker
environment record with `||` defaults; the numeric knobs go through
`parseInt(env.X) || default`. -/
def mkConfig (env : List (String × JSValue)) : WeatherConfig :=
  { NWS_API_BASE := jsOr (jsGet (.obj env) "NWS_API_BASE") (.str "https://api.weather.gov")
    USER_AGENT := jsOr (jsGet (.obj env) "USER_AGENT") (.str "cloudflare-mcp-sse/1.0")
    REQUEST_TIMEOUT := numOr (jsParseInt (toJSString (jsGet (.obj env) "REQUEST_TIMEOUT"))) 30000
    MAX_FORECAST_PERIODS := numOr (jsParseInt (toJSString (jsGet (.obj env) "MAX_FORECAST_PERIODS"))) 5 }

/-- Config built from an empty environment: all defaults. -/
def defaultConfig : WeatherConfig := mkConfig []

/-- The upstream fetch, abstracted: `makeNWSRequest` maps a URL to a
parsed payload or `null` (`none`) on any failure (network error,
timeout, non-2xx status, body parse error). -/
abbrev Fetch := String → Option JSValue

/-- `formatAlert`: reads `feature.properties` (throwing when `feature`
or `properties` is nullish, as the source would) and renders the fixed
Event/Area/Severity/Description/Instructions template with fallbacks. -/
def formatAlert (feature : JSValue) : Except String String :=
  match getProp feature "properties" with
  | .error e => .error e
  | .ok props =>
    match props with
    | .undefv => .error "TypeError: cannot read event of undefined"
    | .nullv => .error "TypeError: cannot read event of null"
    | _ => .ok ("\nEvent: " ++ toJSString (jsOr (jsGet props "event") (.str "Unknown"))
        ++ "\nArea: " ++ toJSString (jsOr (jsGet props "areaDesc") (.str "Unknown"))
        ++ "\nSeverity: " ++ toJSString (jsOr (jsGet props "severity") (.str "Unknown"))
        ++ "\nDescription: " ++ toJSString (jsOr (jsGet props "description") (.str "No description available"))
        ++ "\nInstructions: " ++ toJSString (jsOr (jsGet props "instruction") (.str "No specific instructions provided"))
        ++ "\n")

/-- The URL built by `getAlerts` before fetching. -/
def alertsUrl (cfg : WeatherConfig) (state : JSValue) : String :=
  toJSString cfg.NWS_API_BASE ++ "/alerts/active/area/" ++ toJSString state

/-- Body of `getAlerts` after the fetch: the two falsiness guards on
`data` and `data.features`, the `!data.features.length` guard, then
`features.map(formatAlert)` joined with the separator. -/
def alertsFromData (dataOpt : Option JSValue) : Except String String :=
  match dataOpt with
  | none => .ok "Unable to fetch alerts or no alerts found."
  | some data =>
    if jsTruthy data = false then .ok "Unable to fetch alerts or no alerts found."
    else
      let features := jsGet data "features"
      if jsTruthy features = false then .ok "Unable to fetch alerts or no alerts found."
      else if jsTruthy (jsGet features "length") = false then .ok "No active alerts for this state."
      else
        match features with
        | .arr xs =>
          (match xs.mapM formatAlert with
           | .error e => .error e
           | .ok blocks => .ok (String.intercalate "\n---\n" blocks))
        | _ => .error "TypeError: features.map is not a function"

/-- `getAlerts(state)`: fetch the active-alerts URL for the state and
process the payload. -/
def getAlerts (cfg : WeatherConfig) (oracle : Fetch) (state : JSValue) : Except String String :=
  alertsFromData (oracle (alertsUrl cfg state))

/-- The points URL built by `getForecast` before its first fetch. -/
def pointsUrl (cfg : WeatherConfig) (latitude longitude : JSValue) : String :=
  toJSString cfg.NWS_API_BASE ++ "/points/" ++ toJSString latitude ++ "," ++ toJSString longitude

/-- One entry of the forecast template: reads the six period fields
(throwing when the period itself is nullish) and renders the fixed
name/temperature/wind/forecast block. -/
def fmtPeriod (p : JSValue) : Except String String :=
  match p with
  | .undefv => .error "TypeError: cannot read name of undefined"
  | .nullv => .error "TypeError: cannot read name of null"
  | _ => .ok ("\n" ++ toJSString (jsGet p "name")
      ++ ":\nTemperature: " ++ toJSString (jsGet p "temperature")
      ++ "°" ++ toJSString (jsGet p "temperatureUnit")
      ++ "\nWind: " ++ toJSString (jsGet p "windSpeed")
      ++ " " ++ toJSString (jsGet p "windDirection")
      ++ "\nForecast: " ++ toJSString (jsGet p "detailedForecast")
      ++ "\n")

/-- `getForecast(latitude, longitude)`: two sequential fetches, then
`properties.periods.slice(0, MAX_FORECAST_PERIODS)` formatted and
joined.  Property reads on nullish intermediate values and `.slice` or
`.map` on non-arrays throw, exactly as in the source. -/
def getForecast (cfg : WeatherConfig) (oracle : Fetch) (latitude longitude : JSValue) :
    Except String String :=
  match oracle (pointsUrl cfg latitude longitude) with
  | none => .ok "Unable to fetch forecast data for this location."
  | some pointsData =>
    match getProp pointsData "properties" with
    | .error e => .error e
    | .ok props =>
      match getProp props "forecast" with
      | .error e => .error e
      | .ok forecastUrl =>
        match oracle (toJSString forecastUrl) with
        | none => .ok "Unable to fetch detailed forecast."
        | some forecastData =>
          match getProp forecastData "properties" with
          | .error e => .error e
          | .ok fprops =>
            match getProp fprops "periods" with
            | .error e => .error e
            | .ok (.arr xs) =>
              (match (jsSlice0 cfg.MAX_FORECAST_PERIODS xs).mapM fmtPeriod with
               | .error e => .error e
               | .ok entries => .ok (String.intercalate "\n---\n" entries))
            | .ok .undefv => .error "TypeError: cannot read slice of undefined"
            | .ok .nullv => .error "TypeError: cannot read slice of null"
            | .ok _ => .error "TypeError: periods.slice is not a function"

/-- The `MCPTool` descriptor interface. -/
structure MCPTool where
  name : String
  description : String
  inputSchema : JSValue

/-- `getTools()`: the fixed two-element catalog, in declaration order. -/
def getTools : List MCPTool :=
  [ { name := "get_alerts"
      description := "Get weather alerts for a US state"
      inputSchema := .obj
        [ ("type", .str "object")
        , ("properties", .obj
            [ ("state", .obj
                [ ("type", .str "string")
                , ("description", .str "Two-letter US state code (e.g. CA, NY)") ]) ])
        , ("required", .arr [.str "state"]) ] }
  , { name := "get_forecast"
      description := "Get weather forecast for a location"
      inputSchema := .obj
        [ ("type", .str "object")
        , ("properties", .obj
            [ ("latitude", .obj
                [ ("type", .str "number")
                , ("description", .str "Latitude of the location") ])
            , ("longitude", .obj
                [ ("type", .str "number")
                , ("description", .str "Longitude of the location") ]) ])
        , ("required", .arr [.str "latitude", .str "longitude"]) ] } ]

/-- `executeTool(name, args)`: switch on the tool name; the argument
property reads (`args.state`, `args.latitude`, `args.longitude`) happen
before the handler call and may throw; any other name throws
`Unknown tool: ...`. -/
def executeTool (cfg : WeatherConfig) (oracle : Fetch) (nm args : JSValue) :
    Except String String :=
  match nm with
  | .str "get_alerts" =>
    (match getProp args "state" with
     | .error e => .error e
     | .ok st => getAlerts cfg oracle st)
  | .str "get_forecast" =>
    (match getProp args "latitude" with
     | .error e => .error e
     | .ok la =>
       match getProp args "longitude" with
       | .error e => .error e
       | .ok lo => getForecast cfg oracle la lo)
  | _ => .error ("Unknown tool: " ++ toJSString nm)

/-- The `MCPRequest` interface: an optional correlation id, a method
string, and untyped `params` (absent params are `undefined`). -/
structure MCPRequest where
  id : Option JSValue
  method : String
  params : JSValue

/-- The `error` member of a response envelope. -/
structure MCPError where
  code : Int
  message : String

/-- The `MCPResponse` interface (the `jsonrpc: "2.0"` tag is constant
in every branch of the source and is omitted). -/
structure MCPResponse where
  id : Option JSValue
  result : Option JSValue
  error : Option MCPError

/-- The fixed `result` payload of `handleInitialize`. -/
def initResult : JSValue :=
  .obj
    [ ("protocolVersion", .str "2025-06-18")
    , ("capabilities", .obj [("tools", .obj [])])
    , ("serverInfo", .obj
        [ ("name", .str "weather-mcp-server")
        , ("version", .str "1.0.0") ]) ]

/-- JSON rendering of a tool descriptor, as serialized into the
`tools/list` result. -/
def toolToJS (t : MCPTool) : JSValue :=
  .obj
    [ ("name", .str t.name)
    , ("description", .str t.description)
    , ("inputSchema", t.inputSchema) ]

/-- The `result` payload of `handleToolsList`: `{tools: getTools()}`. -/
def toolsListResult : JSValue :=
  .obj [("tools", .arr (getTools.map toolToJS))]

/-- The `result` payload wrapping a successful tool text. -/
def resultContent (text : String) : JSValue :=
  .obj [("content", .arr [.obj [("type", .str "text"), ("text", .str text)]])]

/-- `handleToolsCall`: destructure `{name, arguments}` from `params`
(this read throws on nullish `params`, escaping to `handleRequest`),
run the executor inside the inner try/catch, and wrap success as a
content result or failure as a `-32603` error envelope. -/
def handleToolsCall (cfg : WeatherConfig) (oracle : Fetch) (req : MCPRequest) :
    Except String MCPResponse :=
  match getProp req.params "name" with
  | .error e => .error e
  | .ok nm =>
    match getProp req.params "arguments" with
    | .error e => .error e
    | .ok args =>
      match executeTool cfg oracle nm args with
      | .ok text => .ok ⟨req.id, some (resultContent text), none⟩
      | .error e => .ok ⟨req.id, none, some ⟨-32603, e⟩⟩

/-- `MCPServer.handleRequest`: route on `method`; the session state is
the single `initialized` flag (set by `initialize`, read by nobody);
the outermost try/catch converts any escaped exception to `-32603`. -/
def handleRequest (cfg : WeatherConfig) (oracle : Fetch) (ini : Bool) (req : MCPRequest) :
    MCPResponse × Bool :=
  if req.method = "initialize" then
    (⟨req.id, some initResult, none⟩, true)
  else if req.method = "tools/list" then
    (⟨req.id, some toolsListResult, none⟩, ini)
  else if req.method = "tools/call" then
    ((match handleToolsCall cfg oracle req with
      | .ok resp => resp
      | .error e => ⟨req.id, none, some ⟨-32603, e⟩⟩), ini)
  else
    (⟨req.id, none, some ⟨-32601, "Method not found: " ++ req.method⟩⟩, ini)

/-! ### Concrete fixtures for the evaluation witnesses -/

/-- A fetch for which every request fails. -/
def fetchNone : Fetch := fun _ => none

/-- Fixture for `get_forecast`: the points payload carries a forecast
URL, but the forecast payload has a `properties` object with no
`periods` key. -/
def c1Oracle : Fetch := fun u =>
  if u = "https://api.weather.gov/points/1,2" then
    some (.obj [("properties", .obj [("forecast", .str "https://example.com/forecast")])])
  else if u = "https://example.com/forecast" then
    some (.obj [("properties", .obj [])])
  else none

/-- Fixture: the points payload has a `properties` object that lacks
the `forecast` key, so the second fetch goes to the literal URL
`"undefined"` and fails. -/
def c1OracleNoForecastKey : Fetch := fun u =>
  if u = "https://api.weather.gov/points/1,2" then
    some (.obj [("properties", .obj [])])
  else none

/-- A single forecast period record. -/
def samplePeriod : JSValue :=
  .obj
    [ ("name", .str "Tonight")
    , ("temperature", .num 70)
    , ("temperatureUnit", .str "F")
    , ("windSpeed", .str "5 mph")
    , ("windDirection", .str "NW")
    , ("detailedForecast", .str "Clear skies.") ]

/-- Seven identical periods: more than the default cap of five. -/
def c3Periods : List JSValue := List.replicate 7 samplePeriod

/-- Fixture for the truncation claim: both fetches succeed and the
forecast payload has seven periods. -/
def c3Oracle : Fetch := fun u =>
  if u = "https://api.weather.gov/points/1,2" then
    some (.obj [("properties", .obj [("forecast", .str "https://example.com/forecast")])])
  else if u = "https://example.com/forecast" then
    some (.obj [("properties", .obj [("periods", .arr c3Periods)])])
  else none

/-- The formatted entries the truncation fixture produces. -/
def c3Entries : List String :=
  (((jsSlice0 defaultConfig.MAX_FORECAST_PERIODS c3Periods).mapM fmtPeriod).toOption).getD []

/-- Two alert features, the second with every optional field absent. -/
def c2Features : List JSValue :=
  [ .obj [("properties", .obj
      [ ("event", .str "Flood Warning")
      , ("areaDesc", .str "Sacramento County")
      , ("severity", .str "Severe")
      , ("description", .str "Rivers rising.")
      , ("instruction", .str "Move to high ground.") ])]
  , .obj [("properties", .obj [])] ]

/-- Fixture for `get_alerts`: the CA query returns the two features. -/
def c2Oracle : Fetch := fun u =>
  if u = "https://api.weather.gov/alerts/active/area/CA" then
    some (.obj [("features", .arr c2Features)])
  else none

/-- The formatted blocks the alerts fixture produces. -/
def c2Blocks : List String :=
  ((c2Features.mapM formatAlert).toOption).getD []

/-- Fixture for `get_alerts` with an empty feature list. -/
def c2OracleEmpty : Fetch := fun u =>
  if u = "https://api.weather.gov/alerts/active/area/CA" then
    some (.obj [("features", .arr [])])
  else none

/-! ### Helper lemmas -/

theorem mapM_except_ok_length {α β ε : Type} (f : α → Except ε β) :
    ∀ (xs : List α) (ys : List β), xs.mapM f = .ok ys → ys.length = xs.length := by
  intro xs
  induction xs with
  | nil =>
    intro ys h
    simp only [List.mapM_nil] at h
    cases h
    rfl
  | cons a l ih =>
    intro ys h
    rw [List.mapM_cons] at h
    cases hfa : f a with
    | error e => rw [hfa] at h; simp [Bind.bind, Except.bind] at h
    | ok y =>
      rw [hfa] at h
      cases hl : l.mapM f with
      | error e => rw [hl] at h; simp [Bind.bind, Except.bind] at h
      | ok ys2 =>
        rw [hl] at h
        simp only [Bind.bind, Except.bind, pure, Except.pure] at h
        cases h
        simp [ih ys2 hl]

theorem numOr_ne_zero (x : Option Int) (d : Int) (hd : d ≠ 0) : numOr x d ≠ 0 := by
  cases x with
  | none => simpa [numOr] using hd
  | some n =>
    by_cases hn : n = 0 <;> simp [numOr, hn, hd]

theorem handleToolsCall_ok (cfg : WeatherConfig) (oracle : Fetch) (req : MCPRequest)
    (resp : MCPResponse) (h : handleToolsCall cfg oracle req = .ok resp) :
    resp.id = req.id ∧
    ((resp.result.isSome ∧ resp.error = none) ∨ (resp.result = none ∧ resp.error.isSome)) := by
  unfold handleToolsCall at h
  cases hn : getProp req.params "name" with
  | error e => rw [hn] at h; cases h
  | ok nm =>
    rw [hn] at h
    cases ha : getProp req.params "arguments" with
    | error e => rw [ha] at h; cases h
    | ok args =>
      rw [ha] at h
      have h2 : (match executeTool cfg oracle nm args with
        | Except.ok text =>
            Except.ok (⟨req.id, some (resultContent text), none⟩ : MCPResponse)
        | Except.error e =>
            Except.ok (⟨req.id, none, some ⟨-32603, e⟩⟩ : MCPResponse)) = Except.ok resp := h
      cases he : executeTool cfg oracle nm args with
      | ok text => rw [he] at h2; cases h2; simp
      | error e => rw [he] at h2; cases h2; simp

/-! ### Claims -/

/-- Claim C4: for every request, the response envelope produced by
`handleRequest` contains exactly one of `result` and `error` (never
both, never neither), and its `id` equals the request id. -/
theorem c4_envelope_exclusive (cfg : WeatherConfig) (oracle : Fetch) (ini : Bool)
    (req : MCPRequest) :
    (handleRequest cfg oracle ini req).1.id = req.id ∧
    (((handleRequest cfg oracle ini req).1.result.isSome ∧
        (handleRequest cfg oracle ini req).1.error = none) ∨
     ((handleRequest cfg oracle ini req).1.result = none ∧
        (handleRequest cfg oracle ini req).1.error.isSome)) := by
  unfold handleRequest
  by_cases h1 : req.method = "initialize"
  · simp [h1]
  · by_cases h2 : req.method = "tools/list"
    · simp [h1, h2]
    · by_cases h3 : req.method = "tools/call"
      · simp only [h1, h2, h3, if_true, if_false, if_neg, if_pos]
        cases hc : handleToolsCall cfg oracle req with
        | error e => simp [hc]
        | ok resp =>
          have := handleToolsCall_ok cfg oracle req resp hc
          simpa [hc] using this
      · simp [h1, h2, h3]

/-- Claim C5: a request whose method is none of `initialize`,
`tools/list`, `tools/call` yields an error envelope with code `-32601`
whose message names the unrecognized method. -/
theorem c5_method_not_found (cfg : WeatherConfig) (oracle : Fetch) (ini : Bool)
    (req : MCPRequest) (h1 : req.method ≠ "initialize") (h2 : req.method ≠ "tools/list")
    (h3 : req.method ≠ "tools/call") :
    (handleRequest cfg oracle ini req).1 =
      ⟨req.id, none, some ⟨-32601, "Method not found: " ++ req.method⟩⟩ := by
  simp [handleRequest, h1, h2, h3]

theorem c5_method_not_found_witness :
    (handleRequest defaultConfig fetchNone false ⟨some (.num 7), "nonexistent", .undefv⟩).1 =
      ⟨some (.num 7), none, some ⟨-32601, "Method not found: nonexistent"⟩⟩ :=
  c5_method_not_found defaultConfig fetchNone false ⟨some (.num 7), "nonexistent", .undefv⟩
    (by decide) (by decide) (by decide)

/-- Claim C9: every `initialize` request succeeds with the fixed result
payload (no error envelope), whose `protocolVersion` is `2025-06-18`
and whose `serverInfo` is a non-empty object, independent of the
session state `ini`. -/
theorem c9_initialize_fixed (cfg : WeatherConfig) (oracle : Fetch) (ini : Bool)
    (req : MCPRequest) (h : req.method = "initialize") :
    (handleRequest cfg oracle ini req).1 = ⟨req.id, some initResult, none⟩ ∧
    (handleRequest cfg oracle ini req).1.error = none ∧
    jsGet initResult "protocolVersion" = .str "2025-06-18" ∧
    ∃ fs, jsGet initResult "serverInfo" = .obj fs ∧ fs ≠ [] := by
  refine ⟨by simp [handleRequest, h], by simp [handleRequest, h], rfl, ?_⟩
  exact ⟨[("name", .str "weather-mcp-server"), ("version", .str "1.0.0")], rfl, by simp⟩

theorem c9_initialize_fixed_witness :
    (handleRequest defaultConfig fetchNone false ⟨some (.str "a"), "initialize", .undefv⟩).1 =
      ⟨some (.str "a"), some initResult, none⟩ ∧
    (handleRequest defaultConfig fetchNone false ⟨some (.str "a"), "initialize", .undefv⟩).1.error
      = none ∧
    jsGet initResult "protocolVersion" = .str "2025-06-18" ∧
    ∃ fs, jsGet initResult "serverInfo" = .obj fs ∧ fs ≠ [] :=
  c9_initialize_fixed defaultConfig fetchNone false ⟨some (.str "a"), "initialize", .undefv⟩ rfl

/-- Claim C8: every `tools/list` request returns the fixed descriptor
list — exactly two tools, named `get_alerts` then `get_forecast` — the
response is the same whatever the session state and the oracle, and the
session state is left unchanged. -/
theorem c8_tools_list (cfg : WeatherConfig) (oracle : Fetch) (ini : Bool)
    (req : MCPRequest) (h : req.method = "tools/list") :
    (handleRequest cfg oracle ini req).1 = ⟨req.id, some toolsListResult, none⟩ ∧
    (handleRequest cfg oracle ini req).2 = ini ∧
    getTools.length = 2 ∧
    getTools.map MCPTool.name = ["get_alerts", "get_forecast"] := by
  refine ⟨by simp [handleRequest, h], by simp [handleRequest, h], rfl, rfl⟩

theorem c8_tools_list_witness :
    (handleRequest defaultConfig fetchNone true ⟨none, "tools/list", .undefv⟩).1 =
      ⟨none, some toolsListResult, none⟩ ∧
    (handleRequest defaultConfig fetchNone true ⟨none, "tools/list", .undefv⟩).2 = true ∧
    getTools.length = 2 ∧
    getTools.map MCPTool.name = ["get_alerts", "get_forecast"] :=
  c8_tools_list defaultConfig fetchNone true ⟨none, "tools/list", .undefv⟩ rfl

/-- Claim C2: `get_alerts` returns the fixed unable-to-fetch string when
the fetch fails or the payload has no `features` field, the fixed
no-active-alerts string when `features` is the empty list, and otherwise
formats every feature (with an existing `properties` member) as an
Event/Area/Severity/Description/Instructions block with the documented
fallbacks and joins the blocks with the separator in upstream order. -/
theorem c2_get_alerts_cases (cfg : WeatherConfig) (oracle : Fetch) (st : JSValue) :
    (oracle (alertsUrl cfg st) = none →
      getAlerts cfg oracle st = .ok "Unable to fetch alerts or no alerts found.") ∧
    (∀ fields, oracle (alertsUrl cfg st) = some (.obj fields) →
      List.lookup "features" fields = none →
      getAlerts cfg oracle st = .ok "Unable to fetch alerts or no alerts found.") ∧
    (∀ fields, oracle (alertsUrl cfg st) = some (.obj fields) →
      List.lookup "features" fields = some (.arr []) →
      getAlerts cfg oracle st = .ok "No active alerts for this state.") ∧
    (∀ fields xs blocks, oracle (alertsUrl cfg st) = some (.obj fields) →
      List.lookup "features" fields = some (.arr xs) →
      xs ≠ [] → xs.mapM formatAlert = .ok blocks →
      getAlerts cfg oracle st = .ok (String.intercalate "\n---\n" blocks)) ∧
    (∀ f props, getProp f "properties" = .ok props → props ≠ .undefv → props ≠ .nullv →
      formatAlert f =
        .ok ("\nEvent: " ++ toJSString (jsOr (jsGet props "event") (.str "Unknown"))
          ++ "\nArea: " ++ toJSString (jsOr (jsGet props "areaDesc") (.str "Unknown"))
          ++ "\nSeverity: " ++ toJSString (jsOr (jsGet props "severity") (.str "Unknown"))
          ++ "\nDescription: "
          ++ toJSString (jsOr (jsGet props "description") (.str "No description available"))
          ++ "\nInstructions: "
          ++ toJSString (jsOr (jsGet props "instruction") (.str "No specific instructions provided"))
          ++ "\n")) := by
  refine ⟨?_, ?_, ?_, ?_, ?_⟩
  · intro h
    simp [getAlerts, alertsFromData, h]
  · intro fields h hl
    simp [getAlerts, alertsFromData, h, jsTruthy, jsGet, hl]
  · intro fields h hl
    simp [getAlerts, alertsFromData, h, jsTruthy, jsGet, hl]
  · intro fields xs blocks h hl hne hb
    have hlen : (xs.length : Int) ≠ 0 := by
      simpa using fun hz => hne (List.length_eq_zero.mp hz)
    unfold List.mapM at hb
    simp [getAlerts, alertsFromData, h, jsTruthy, jsGet, hl, hlen, hb]
  · intro f props hp h1 h2
    cases props with
    | undefv => exact absurd rfl h1
    | nullv => exact absurd rfl h2
    | bool b => simp [formatAlert, hp]
    | num n => simp [formatAlert, hp]
    | str s => simp [formatAlert, hp]
    | arr l => simp [formatAlert, hp]
    | obj l => simp [formatAlert, hp]

theorem c2_get_alerts_cases_witness :
    getAlerts defaultConfig fetchNone (.str "CA") =
      .ok "Unable to fetch alerts or no alerts found." ∧
    getAlerts defaultConfig c2OracleEmpty (.str "CA") = .ok "No active alerts for this state." ∧
    getAlerts defaultConfig c2Oracle (.str "CA") =
      .ok (String.intercalate "\n---\n" c2Blocks) :=
  ⟨(c2_get_alerts_cases defaultConfig fetchNone (.str "CA")).1 rfl,
   (c2_get_alerts_cases defaultConfig c2OracleEmpty (.str "CA")).2.2.1 _ rfl rfl,
   (c2_get_alerts_cases defaultConfig c2Oracle (.str "CA")).2.2.2.1 _ _ _ rfl rfl
     (by simp [c2Features]) rfl⟩

/-- Claim C3: when both forecast fetches succeed and
`properties.periods` is a list whose relevant entries format without
throwing, the output is the first `MAX_FORECAST_PERIODS` periods (in
upstream order) joined with exactly the separator, and the number of
entries never exceeds `MAX_FORECAST_PERIODS`. -/
theorem c3_forecast_truncation (cfg : WeatherConfig) (oracle : Fetch)
    (lat lon pd props furl fd fps : JSValue) (xs : List JSValue) (entries : List String)
    (h1 : oracle (pointsUrl cfg lat lon) = some pd)
    (h2 : getProp pd "properties" = .ok props)
    (h3 : getProp props "forecast" = .ok furl)
    (h4 : oracle (toJSString furl) = some fd)
    (h5 : getProp fd "properties" = .ok fps)
    (h6 : getProp fps "periods" = .ok (.arr xs))
    (h7 : (jsSlice0 cfg.MAX_FORECAST_PERIODS xs).mapM fmtPeriod = .ok entries)
    (h8 : 0 ≤ cfg.MAX_FORECAST_PERIODS) :
    getForecast cfg oracle lat lon = .ok (String.intercalate "\n---\n" entries) ∧
    entries.length ≤ cfg.MAX_FORECAST_PERIODS.toNat ∧
    jsSlice0 cfg.MAX_FORECAST_PERIODS xs = xs.take cfg.MAX_FORECAST_PERIODS.toNat := by
  have hslice : jsSlice0 cfg.MAX_FORECAST_PERIODS xs
      = xs.take cfg.MAX_FORECAST_PERIODS.toNat := by
    unfold jsSlice0
    rw [if_neg (by omega)]
  refine ⟨?_, ?_, hslice⟩
  · have h7b := h7
    unfold List.mapM at h7b
    simp [getForecast, h1, h2, h3, h4, h5, h6, h7b]
  · have hlen := mapM_except_ok_length fmtPeriod _ _ h7
    rw [hlen, hslice]
    exact le_trans (List.length_take_le _ _) (le_refl _)

theorem c3_forecast_truncation_witness :
    getForecast defaultConfig c3Oracle (.num 1) (.num 2) =
      .ok (String.intercalate "\n---\n" c3Entries) ∧
    c3Entries.length ≤ defaultConfig.MAX_FORECAST_PERIODS.toNat ∧
    jsSlice0 defaultConfig.MAX_FORECAST_PERIODS c3Periods =
      c3Periods.take defaultConfig.MAX_FORECAST_PERIODS.toNat :=
  c3_forecast_truncation defaultConfig c3Oracle (.num 1) (.num 2) _ _ _ _ _ c3Periods c3Entries
    rfl rfl rfl rfl rfl rfl rfl (by decide)

/-- Claim C6: a `tools/call` request naming a tool other than
`get_alerts` or `get_forecast` makes the executor fail with the
`Unknown tool` condition, and the dispatcher converts that failure into
a `-32603` error envelope carrying the failure message. -/
theorem c6_unknown_tool (cfg : WeatherConfig) (oracle : Fetch) (ini : Bool)
    (req : MCPRequest) (nm args : JSValue)
    (hm : req.method = "tools/call")
    (hn : getProp req.params "name" = .ok nm)
    (ha : getProp req.params "arguments" = .ok args)
    (g1 : nm ≠ .str "get_alerts") (g2 : nm ≠ .str "get_forecast") :
    executeTool cfg oracle nm args = .error ("Unknown tool: " ++ toJSString nm) ∧
    (handleRequest cfg oracle ini req).1 =
      ⟨req.id, none, some ⟨-32603, "Unknown tool: " ++ toJSString nm⟩⟩ := by
  have hexec : executeTool cfg oracle nm args = .error ("Unknown tool: " ++ toJSString nm) := by
    cases nm with
    | str s =>
      have hs1 : s ≠ "get_alerts" := fun hs => g1 (by rw [hs])
      have hs2 : s ≠ "get_forecast" := fun hs => g2 (by rw [hs])
      simp [executeTool, hs1, hs2]
    | undefv => rfl
    | nullv => rfl
    | bool b => rfl
    | num n => rfl
    | arr l => rfl
    | obj l => rfl
  refine ⟨hexec, ?_⟩
  simp [handleRequest, hm, handleToolsCall, hn, ha, hexec]

theorem c6_unknown_tool_witness :
    executeTool defaultConfig fetchNone (.str "foo") .undefv = .error "Unknown tool: foo" ∧
    (handleRequest defaultConfig fetchNone false
        ⟨some (.num 3), "tools/call", .obj [("name", .str "foo")]⟩).1 =
      ⟨some (.num 3), none, some ⟨-32603, "Unknown tool: foo"⟩⟩ :=
  c6_unknown_tool defaultConfig fetchNone false
    ⟨some (.num 3), "tools/call", .obj [("name", .str "foo")]⟩ (.str "foo") .undefv
    rfl rfl rfl (by simp) (by simp)

/-- Claim C7: calling `get_alerts` with an arguments object that omits
`state` performs no schema validation: execution proceeds directly to
the upstream fetch, whose URL is the base URL followed by
`/alerts/active/area/undefined` (the missing argument interpolated as
the string `undefined`). -/
theorem c7_missing_state_undefined_url (cfg : WeatherConfig) (oracle : Fetch)
    (fields : List (String × JSValue)) (h : List.lookup "state" fields = none) :
    executeTool cfg oracle (.str "get_alerts") (.obj fields) =
      alertsFromData
        (oracle (toJSString cfg.NWS_API_BASE ++ "/alerts/active/area/undefined")) ∧
    alertsUrl cfg .undefv = toJSString cfg.NWS_API_BASE ++ "/alerts/active/area/undefined" := by
  have hurl : alertsUrl cfg .undefv
      = toJSString cfg.NWS_API_BASE ++ "/alerts/active/area/undefined" := by
    unfold alertsUrl
    rw [String.append_assoc]
    rfl
  refine ⟨?_, hurl⟩
  have hst : getProp (JSValue.obj fields) "state" = .ok .undefv := by
    simp [getProp, jsGet, h]
  simp [executeTool, hst, getAlerts, hurl]

theorem c7_missing_state_undefined_url_witness :
    executeTool defaultConfig fetchNone (.str "get_alerts") (.obj [("other", .num 1)]) =
      alertsFromData
        (fetchNone (toJSString defaultConfig.NWS_API_BASE ++ "/alerts/active/area/undefined")) ∧
    alertsUrl defaultConfig .undefv =
      toJSString defaultConfig.NWS_API_BASE ++ "/alerts/active/area/undefined" :=
  c7_missing_state_undefined_url defaultConfig fetchNone [("other", .num 1)] rfl

/-- Claim C10: whenever `parseInt` on the `REQUEST_TIMEOUT` or
`MAX_FORECAST_PERIODS` environment value yields NaN or `0` (so for the
string `0` and for any non-numeric string), the constructed config
silently falls back to the defaults `30000` and `5`; and no environment
can configure either knob to `0`. -/
theorem c10_config_defaults (env : List (String × JSValue)) :
    ((jsParseInt (toJSString (jsGet (.obj env) "REQUEST_TIMEOUT")) = none ∨
      jsParseInt (toJSString (jsGet (.obj env) "REQUEST_TIMEOUT")) = some 0) →
      (mkConfig env).REQUEST_TIMEOUT = 30000) ∧
    ((jsParseInt (toJSString (jsGet (.obj env) "MAX_FORECAST_PERIODS")) = none ∨
      jsParseInt (toJSString (jsGet (.obj env) "MAX_FORECAST_PERIODS")) = some 0) →
      (mkConfig env).MAX_FORECAST_PERIODS = 5) ∧
    (mkConfig env).REQUEST_TIMEOUT ≠ 0 ∧
    (mkConfig env).MAX_FORECAST_PERIODS ≠ 0 := by
  refine ⟨?_, ?_, ?_, ?_⟩
  · rintro (h | h) <;> simp [mkConfig, numOr, h]
  · rintro (h | h) <;> simp [mkConfig, numOr, h]
  · exact numOr_ne_zero _ _ (by decide)
  · exact numOr_ne_zero _ _ (by decide)

theorem c10_config_defaults_witness :
    (mkConfig [("REQUEST_TIMEOUT", .str "0"), ("MAX_FORECAST_PERIODS", .str "abc")]).REQUEST_TIMEOUT
      = 30000 ∧
    (mkConfig [("REQUEST_TIMEOUT", .str "0"), ("MAX_FORECAST_PERIODS", .str "abc")]).MAX_FORECAST_PERIODS
      = 5 ∧
    (mkConfig [("REQUEST_TIMEOUT", .str "0"), ("MAX_FORECAST_PERIODS", .str "abc")]).REQUEST_TIMEOUT
      ≠ 0 ∧
    (mkConfig [("REQUEST_TIMEOUT", .str "0"), ("MAX_FORECAST_PERIODS", .str "abc")]).MAX_FORECAST_PERIODS
      ≠ 0 := by
  have h := c10_config_defaults [("REQUEST_TIMEOUT", .str "0"), ("MAX_FORECAST_PERIODS", .str "abc")]
  exact ⟨h.1 (Or.inr rfl), h.2.1 (Or.inl rfl), h.2.2.1, h.2.2.2⟩

/-- Claim C1, counterexample: a `get_forecast` run where both fetches
return non-null payloads and the second payload has a `properties`
object with no `periods` key does NOT produce a soft-failure text — the
code throws a TypeError at `periods.slice`, refuting the claim that the
absence of an expected upstream path is never a crash. -/
theorem c1_periods_missing_throws :
    getForecast defaultConfig c1Oracle (.num 1) (.num 2) =
      .error "TypeError: cannot read slice of undefined" := by
  rfl

/-- Claim C1 as amended: when the first payload has a `properties`
object merely lacking the `forecast` key, the second fetch targets the
literal URL `undefined` and its failure yields the soft text
`Unable to fetch detailed forecast.`; but when the second fetch returns
a non-null payload whose `properties` object lacks `periods`,
`getForecast` throws a TypeError instead of returning soft-failure
text. -/
theorem c1_forecast_missing_paths :
    (∀ (cfg : WeatherConfig) (oracle : Fetch) (lat lon pd props : JSValue),
      oracle (pointsUrl cfg lat lon) = some pd →
      getProp pd "properties" = .ok props →
      getProp props "forecast" = .ok .undefv →
      oracle "undefined" = none →
      getForecast cfg oracle lat lon = .ok "Unable to fetch detailed forecast.") ∧
    (∀ (cfg : WeatherConfig) (oracle : Fetch) (lat lon pd props furl fd fps : JSValue),
      oracle (pointsUrl cfg lat lon) = some pd →
      getProp pd "properties" = .ok props →
      getProp props "forecast" = .ok furl →
      oracle (toJSString furl) = some fd →
      getProp fd "properties" = .ok fps →
      getProp fps "periods" = .ok .undefv →
      getForecast cfg oracle lat lon = .error "TypeError: cannot read slice of undefined") := by
  constructor
  · intro cfg oracle lat lon pd props h1 h2 h3 h4
    have h4b : oracle (toJSString JSValue.undefv) = none := h4
    simp [getForecast, h1, h2, h3, h4b]
  · intro cfg oracle lat lon pd props furl fd fps h1 h2 h3 h4 h5 h6
    simp [getForecast, h1, h2, h3, h4, h5, h6]

theorem c1_forecast_missing_paths_witness :
    getForecast defaultConfig c1OracleNoForecastKey (.num 1) (.num 2) =
      .ok "Unable to fetch detailed forecast." ∧
    getForecast defaultConfig c1Oracle (.num 1) (.num 2) =
      .error "TypeError: cannot read slice of undefined" :=
  ⟨c1_forecast_missing_paths.1 defaultConfig c1OracleNoForecastKey (.num 1) (.num 2) _ _
      rfl rfl rfl rfl,
   c1_forecast_missing_paths.2 defaultConfig c1Oracle (.num 1) (.num 2) _ _ _ _ _
      rfl rfl rfl rfl rfl rfl⟩
